import Mathlib

/-!
Shallow embedding of `src/app.py` (MedTrack): a Flask application over three
DynamoDB tables (`users`, `doctors`, `appointments`), an SNS broadcast
channel and a best-effort mail sender.  Each route handler is embedded as a
pure function from the store, the caller's session and the request's form
fields to a `HandlerResult` (response, flash message, new session, new
store, log lines).  DynamoDB `get_item` / `put_item` / `scan` become keyed
lookup, keyed upsert and filtered list traversal over the in-store lists.
-/

namespace MedTrack

/-- A record of the `users` table (key: `username`): fields written by
`register` at src/app.py lines 110-114. -/
structure UserRec where
  username : String
  password : String
  role : String
deriving Repr, DecidableEq

/-- A record of the `doctors` table (key: `doctor_id`): fields written by
`doctor_register` at src/app.py lines 232-237. -/
structure DoctorRec where
  doctor_id : String
  name : String
  specialization : String
  email : String
deriving Repr, DecidableEq

/-- A record of the `appointments` table (composite key `appointment_id` +
`doctor_id`): fields written by `book_appointment` at src/app.py
lines 180-187. -/
structure AppointmentRec where
  appointment_id : String
  doctor_id : String
  patient_email : String
  date : String
  reason : String
  status : String
deriving Repr, DecidableEq

/-- The three DynamoDB tables, plus the generation counter `nextUuid` that
indexes the fresh-name supply modelling `uuid.uuid4()` (src/app.py lines
173 and 228 both draw from the same process-wide generator). -/
structure Store where
  users : List UserRec
  doctors : List DoctorRec
  appointments : List AppointmentRec
  nextUuid : Nat
deriving Repr, DecidableEq

/-- The Flask session after a successful login: `session['username']` and
`session['role']` (src/app.py lines 143-144). `none` models a request with
no session identity. -/
structure SessionIdentity where
  username : String
  role : String
deriving Repr, DecidableEq

/-- Environment of one `send_sns_notification` call: whether
`SNS_TOPIC_ARN` is configured and whether `sns.publish` raises
(src/app.py lines 80-89). -/
inductive NotifyOutcome where
  | noTopic
  | published
  | publishFailed
deriving Repr, DecidableEq

/-- The HTTP response a handler produces: a redirect, or a rendered
template (parametrised by the data passed to `render_template`). -/
inductive Response where
  | redirectTo (path : String)
  | rendered (template : String)
  | renderedWithAppointments (template : String) (items : List AppointmentRec)
  | renderedWithDoctors (template : String) (items : List DoctorRec)
  | renderedDashboard (template : String) (username : String)
deriving Repr, DecidableEq

/-- Everything one request produces: the response, the flash message (text,
category) if any, the session after the request, the store after the
request, the log lines printed, and the appointment record created by the
request if any. -/
structure HandlerResult where
  response : Response
  flash : Option (String × String)
  session : Option SessionIdentity
  store : Store
  log : List String
  created : Option AppointmentRec
deriving Repr, DecidableEq

def emptyStore : Store := { users := [], doctors := [], appointments := [], nextUuid := 0 }

/-- `str(uuid.uuid4())` (src/app.py lines 173 and 228), modelled as the
`n`-th name of an injective fresh-name supply, indexed by the store's
generation counter: the model replaces the random draw by an enumeration
whose freshness is provable. -/
def freshUuid (n : Nat) : String :=
  String.mk ('u' :: 'u' :: 'i' :: 'd' :: '-' :: (Nat.digits 10 n).map Nat.digitChar)

/-- `users_table.get_item(Key={'username': u})` (src/app.py lines 104 and 139). -/
def getUser (s : Store) (username : String) : Option UserRec :=
  s.users.find? fun r => r.username == username

/-- `users_table.put_item(Item=...)` (src/app.py lines 110-114): DynamoDB
put is an unconditional upsert on the key `username`. -/
def putUser (s : Store) (r : UserRec) : Store :=
  { s with users := r :: s.users.filter fun x => x.username != r.username }

/-- `doctors_table.put_item(Item=...)` (src/app.py lines 232-237): upsert
on the key `doctor_id`. -/
def putDoctor (s : Store) (r : DoctorRec) : Store :=
  { s with doctors := r :: s.doctors.filter fun x => x.doctor_id != r.doctor_id }

/-- `appointments_table.put_item(Item=...)` (src/app.py lines 180-187):
upsert on the composite key `appointment_id` + `doctor_id`. -/
def putAppointment (s : Store) (r : AppointmentRec) : Store :=
  { s with appointments :=
      r :: s.appointments.filter fun x =>
        !(x.appointment_id == r.appointment_id && x.doctor_id == r.doctor_id) }

/-- `send_sns_notification` (src/app.py lines 80-89): if no topic is
configured the body is skipped; otherwise `sns.publish` is attempted and
any exception is caught and printed.  The value returned is the list of
log lines printed; no error ever reaches the caller. -/
def send_sns_notification (outcome : NotifyOutcome) (message : String) : List String :=
  match outcome with
  | .noTopic => []
  | .published => []
  | .publishFailed => ["SNS error while sending: " ++ message]

/-- POST branch of `/register` (src/app.py lines 96-131).  `mailFails`
models whether `mail.send` raises; the exception is caught at lines
125-126 and only printed. -/
def register (s : Store) (sess : Option SessionIdentity)
    (role username password : String) (mailFails : Bool) : HandlerResult :=
  match getUser s username with
  | some _ =>
      { response := .rendered "register.html"
        flash := some ("User already exists!", "danger")
        session := sess
        store := s
        log := []
        created := none }
  | none =>
      { response := .redirectTo "/login"
        flash := some ("Registration successful! Please log in.", "success")
        session := sess
        store := putUser s { username := username, password := password, role := role }
        log := if mailFails then ["Email error"] else []
        created := none }

/-- POST branch of `/login` (src/app.py lines 133-148): fetch the user by
username; on `user and user['password'] == password` set the session and
redirect to `/<role>`; otherwise flash "Invalid credentials!" and render
the login page again. -/
def login (s : Store) (sess : Option SessionIdentity)
    (username password : String) : HandlerResult :=
  match getUser s username with
  | some user =>
      if user.password == password then
        { response := .redirectTo ("/" ++ user.role)
          flash := none
          session := some { username := username, role := user.role }
          store := s
          log := []
          created := none }
      else
        { response := .rendered "login.html"
          flash := some ("Invalid credentials!", "danger")
          session := sess
          store := s
          log := []
          created := none }
  | none =>
      { response := .rendered "login.html"
        flash := some ("Invalid credentials!", "danger")
        session := sess
        store := s
        log := []
        created := none }

/-- `/doctor` (src/app.py lines 150-154): render the dashboard when the
session exists and its role is `doctor`, else redirect to `/login`. -/
def doctor_dashboard (s : Store) (sess : Option SessionIdentity) : HandlerResult :=
  match sess with
  | some i =>
      if i.role == "doctor" then
        { response := .renderedDashboard "doctor_dashboard.html" i.username
          flash := none, session := sess, store := s, log := [], created := none }
      else
        { response := .redirectTo "/login"
          flash := none, session := sess, store := s, log := [], created := none }
  | none =>
      { response := .redirectTo "/login"
        flash := none, session := none, store := s, log := [], created := none }

/-- `/patient` (src/app.py lines 156-160). -/
def patient_dashboard (s : Store) (sess : Option SessionIdentity) : HandlerResult :=
  match sess with
  | some i =>
      if i.role == "patient" then
        { response := .renderedDashboard "patient_dashboard.html" i.username
          flash := none, session := sess, store := s, log := [], created := none }
      else
        { response := .redirectTo "/login"
          flash := none, session := sess, store := s, log := [], created := none }
  | none =>
      { response := .redirectTo "/login"
        flash := none, session := none, store := s, log := [], created := none }

/-- POST branch of `/appointment/book` (src/app.py lines 168-194): after
the role gate, generate a fresh `appointment_id`, persist the appointment
record, fire the SNS notification (whose outcome is absorbed by
`send_sns_notification`), flash success and redirect to the patient
dashboard. -/
def book_appointment_post (s : Store) (sess : Option SessionIdentity)
    (doctor_id date reason : String) (outcome : NotifyOutcome) : HandlerResult :=
  match sess with
  | none =>
      { response := .redirectTo "/login"
        flash := none, session := none, store := s, log := [], created := none }
  | some i =>
      if i.role != "patient" then
        { response := .redirectTo "/login"
          flash := none, session := sess, store := s, log := [], created := none }
      else
        let appointment_id := freshUuid s.nextUuid
        let appt : AppointmentRec :=
          { appointment_id := appointment_id
            doctor_id := doctor_id
            patient_email := i.username
            date := date
            reason := reason
            status := "Scheduled" }
        { response := .redirectTo "/patient"
          flash := some ("Appointment booked successfully!", "success")
          session := sess
          store := { putAppointment s appt with nextUuid := s.nextUuid + 1 }
          log := send_sns_notification outcome
            ("New appointment booked with Doctor ID " ++ doctor_id ++ " on " ++ date
              ++ " for " ++ i.username)
          created := some appt }

/-- GET branch of `/appointment/book` (src/app.py lines 168-171 and
196-198): same role gate, then a full scan of the doctors table to
populate the dropdown. -/
def book_appointment_get (s : Store) (sess : Option SessionIdentity) : HandlerResult :=
  match sess with
  | none =>
      { response := .redirectTo "/login"
        flash := none, session := none, store := s, log := [], created := none }
  | some i =>
      if i.role != "patient" then
        { response := .redirectTo "/login"
          flash := none, session := sess, store := s, log := [], created := none }
      else
        { response := .renderedWithDoctors "book_appointment.html" s.doctors
          flash := none, session := sess, store := s, log := [], created := none }

/-- `/doctor/appointments` (src/app.py lines 201-210): role gate for
`doctor`, then a scan of the appointments table filtered on
`doctor_id == session['username']`. -/
def doctor_appointments (s : Store) (sess : Option SessionIdentity) : HandlerResult :=
  match sess with
  | none =>
      { response := .redirectTo "/login"
        flash := none, session := none, store := s, log := [], created := none }
  | some i =>
      if i.role != "doctor" then
        { response := .redirectTo "/login"
          flash := none, session := sess, store := s, log := [], created := none }
      else
        { response := .renderedWithAppointments "view_appointment_doctor.html"
            (s.appointments.filter fun a => a.doctor_id == i.username)
          flash := none, session := sess, store := s, log := [], created := none }

/-- `/patient/appointments` (src/app.py lines 213-222): role gate for
`patient`, then a scan filtered on `patient_email == session['username']`. -/
def patient_appointments (s : Store) (sess : Option SessionIdentity) : HandlerResult :=
  match sess with
  | none =>
      { response := .redirectTo "/login"
        flash := none, session := none, store := s, log := [], created := none }
  | some i =>
      if i.role != "patient" then
        { response := .redirectTo "/login"
          flash := none, session := sess, store := s, log := [], created := none }
      else
        { response := .renderedWithAppointments "view_appointment_patient.html"
            (s.appointments.filter fun a => a.patient_email == i.username)
          flash := none, session := sess, store := s, log := [], created := none }

/-- POST branch of `/doctor/register` (src/app.py lines 225-240): no role
gate; generate a fresh `doctor_id`, persist the profile, flash and
redirect to `/login`. -/
def doctor_register (s : Store) (sess : Option SessionIdentity)
    (name specialization email : String) : HandlerResult :=
  let doctor_id := freshUuid s.nextUuid
  { response := .redirectTo "/login"
    flash := some ("Doctor registered successfully!", "success")
    session := sess
    store := { putDoctor s { doctor_id := doctor_id, name := name,
                             specialization := specialization, email := email } with
               nextUuid := s.nextUuid + 1 }
    log := []
    created := none }

/-- One incoming request, with the form fields and environment it carries.
Reachable store states are those produced by a sequence of requests; the
session attached to a request is left arbitrary (a superset of the
sessions `login` actually issues, which only strengthens the invariants
proved below). -/
inductive Action where
  | regAct (sess : Option SessionIdentity) (role username password : String) (mailFails : Bool)
  | loginAct (sess : Option SessionIdentity) (username password : String)
  | bookPostAct (sess : Option SessionIdentity) (doctor_id date reason : String)
      (outcome : NotifyOutcome)
  | bookGetAct (sess : Option SessionIdentity)
  | doctorApptsAct (sess : Option SessionIdentity)
  | patientApptsAct (sess : Option SessionIdentity)
  | doctorDashAct (sess : Option SessionIdentity)
  | patientDashAct (sess : Option SessionIdentity)
  | doctorRegAct (sess : Option SessionIdentity) (name specialization email : String)
deriving Repr, DecidableEq

/-- Dispatch one request to its route handler. -/
def handle : Action → Store → HandlerResult
  | .regAct sess role u p mf, s => register s sess role u p mf
  | .loginAct sess u p, s => login s sess u p
  | .bookPostAct sess d date reason o, s => book_appointment_post s sess d date reason o
  | .bookGetAct sess, s => book_appointment_get s sess
  | .doctorApptsAct sess, s => doctor_appointments s sess
  | .patientApptsAct sess, s => patient_appointments s sess
  | .doctorDashAct sess, s => doctor_dashboard s sess
  | .patientDashAct sess, s => patient_dashboard s sess
  | .doctorRegAct sess n sp e, s => doctor_register s sess n sp e

/-- The store after one request. -/
def exec (a : Action) (s : Store) : Store := (handle a s).store

/-- The store after a sequence of requests. -/
def run : List Action → Store → Store
  | [], s => s
  | a :: rest, s => run rest (exec a s)

/-- The `appointment_id` values returned by the bookings of a request
sequence, in order: a request contributes its created appointment's id
when it creates one. -/
def bookedIds : List Action → Store → List String
  | [], _ => []
  | a :: rest, s =>
      (match (handle a s).created with
       | some appt => [appt.appointment_id]
       | none => []) ++ bookedIds rest (exec a s)

/-- The role strings a request sequence submits to `register`. -/
def rolesSubmitted : List Action → List String
  | [] => []
  | .regAct _ role _ _ _ :: rest => role :: rolesSubmitted rest
  | _ :: rest => rolesSubmitted rest

/-- The list of appointments a response renders, empty for any other
response: used to state that a booked appointment is retrievable through
the patient's appointment listing. -/
def appointmentsShown (r : HandlerResult) : List AppointmentRec :=
  match r.response with
  | .renderedWithAppointments _ items => items
  | _ => []

/-! Concrete data used by the witness theorems. -/

def aliceRec : UserRec := { username := "alice", password := "pw1", role := "patient" }

def gregRec : UserRec := { username := "greg", password := "pw2", role := "doctor" }

def demoDoctor : DoctorRec :=
  { doctor_id := "D1", name := "Dr. X", specialization := "Cardio", email := "x@x.com" }

def demoAppt : AppointmentRec :=
  { appointment_id := "A1", doctor_id := "D1", patient_email := "alice",
    date := "2024-01-01", reason := "checkup", status := "Scheduled" }

def demoApptOther : AppointmentRec :=
  { appointment_id := "A2", doctor_id := "D1", patient_email := "bob",
    date := "2024-01-02", reason := "followup", status := "Scheduled" }

def demoUsers : Store :=
  { users := [aliceRec, gregRec], doctors := [], appointments := [], nextUuid := 0 }

def demoBooked : Store :=
  { users := [aliceRec, gregRec], doctors := [demoDoctor],
    appointments := [demoAppt, demoApptOther], nextUuid := 3 }

def demoActs : List Action :=
  [Action.regAct none "patient" "alice" "pw1" false,
   Action.regAct none "doctor" "greg" "pw2" false]

/-! Helper lemmas about the fresh-name supply. -/

theorem digitChar_injOn {a b : Nat} (ha : a < 10) (hb : b < 10)
    (h : Nat.digitChar a = Nat.digitChar b) : a = b := by
  interval_cases a <;> interval_cases b <;> revert h <;> decide

theorem map_digitChar_injOn (l1 : List Nat) : ∀ l2 : List Nat,
    (∀ x ∈ l1, x < 10) → (∀ x ∈ l2, x < 10) →
    l1.map Nat.digitChar = l2.map Nat.digitChar → l1 = l2 := by
  induction l1 with
  | nil => intro l2 _ _ h; cases l2 <;> simp_all
  | cons a t ih =>
    intro l2 h1 h2 h
    cases l2 with
    | nil => simp at h
    | cons b t2 =>
      simp only [List.map_cons, List.cons.injEq] at h
      have hab : a = b :=
        digitChar_injOn (h1 a (by simp)) (h2 b (by simp)) h.1
      have ht : t = t2 :=
        ih t2 (fun x hx => h1 x (by simp [hx])) (fun x hx => h2 x (by simp [hx])) h.2
      rw [hab, ht]

theorem freshUuid_injective : Function.Injective freshUuid := by
  intro m n h
  have h2 : ('u' :: 'u' :: 'i' :: 'd' :: '-' :: (Nat.digits 10 m).map Nat.digitChar)
      = ('u' :: 'u' :: 'i' :: 'd' :: '-' :: (Nat.digits 10 n).map Nat.digitChar) :=
    congrArg String.data h
  simp only [List.cons.injEq, true_and] at h2
  exact Nat.digits.injective 10
    (map_digitChar_injOn _ _
      (fun x hx => Nat.digits_lt_base (by norm_num) hx)
      (fun x hx => Nat.digits_lt_base (by norm_num) hx) h2)

/-! Helper lemmas about the generation counter along a request sequence. -/

theorem nextUuid_exec (a : Action) (s : Store) :
    (exec a s).nextUuid = s.nextUuid ∨ (exec a s).nextUuid = s.nextUuid + 1 := by
  cases a <;>
    simp only [exec, handle, register, login, book_appointment_post, book_appointment_get,
      doctor_appointments, patient_appointments, doctor_dashboard, patient_dashboard,
      doctor_register, putUser, putDoctor, putAppointment] <;>
    (repeat' split) <;> simp

theorem created_exec (a : Action) (s : Store) (appt : AppointmentRec)
    (h : (handle a s).created = some appt) :
    appt.appointment_id = freshUuid s.nextUuid ∧
      (exec a s).nextUuid = s.nextUuid + 1 := by
  revert h
  cases a <;>
    simp only [exec, handle, register, login, book_appointment_post, book_appointment_get,
      doctor_appointments, patient_appointments, doctor_dashboard, patient_dashboard,
      doctor_register, putUser, putDoctor, putAppointment] <;>
    (repeat' split) <;> (intro h; simp_all; try (subst h; simp))

theorem nextUuid_run_le (acts : List Action) (s : Store) :
    s.nextUuid ≤ (run acts s).nextUuid := by
  induction acts generalizing s with
  | nil => simp [run]
  | cons a rest ih =>
    simp only [run]
    have h1 := nextUuid_exec a s
    have h2 := ih (exec a s)
    rcases h1 with h1 | h1 <;> omega

theorem bookedIds_lower_bound (acts : List Action) (s : Store) :
    ∀ id ∈ bookedIds acts s, ∃ m, s.nextUuid ≤ m ∧ id = freshUuid m := by
  induction acts generalizing s with
  | nil => simp [bookedIds]
  | cons a rest ih =>
    intro id hid
    simp only [bookedIds, List.mem_append] at hid
    rcases hid with h | h
    · revert h
      cases hc : (handle a s).created with
      | none => simp
      | some appt =>
        intro h
        simp only [List.mem_singleton] at h
        obtain ⟨hid', _⟩ := created_exec a s appt hc
        exact ⟨s.nextUuid, le_refl _, by rw [h, hid']⟩
    · obtain ⟨m, hm, he⟩ := ih (exec a s) id h
      rcases nextUuid_exec a s with h1 | h1 <;> exact ⟨m, by omega, he⟩

/-! Helper lemmas about the users table along a request sequence. -/

theorem rolesSubmitted_cons (a : Action) (rest : List Action) :
    rolesSubmitted (a :: rest) = rolesSubmitted [a] ++ rolesSubmitted rest := by
  cases a <;> rfl

theorem users_exec (a : Action) (s : Store) (rec : UserRec)
    (h : rec ∈ (exec a s).users) :
    rec ∈ s.users ∨ rec.role ∈ rolesSubmitted [a] := by
  revert h
  cases a <;>
    simp only [exec, handle, register, login, book_appointment_post, book_appointment_get,
      doctor_appointments, patient_appointments, doctor_dashboard, patient_dashboard,
      doctor_register, putUser, putDoctor, putAppointment] <;>
    (repeat' split) <;> intro h <;>
    first
      | exact Or.inl h
      | (simp only [List.mem_cons] at h
         rcases h with h | h
         exacts [Or.inr (by rw [h]; simp [rolesSubmitted]),
                 Or.inl (List.mem_filter.mp h).1])

theorem users_run (acts : List Action) (s : Store) (rec : UserRec)
    (h : rec ∈ (run acts s).users) :
    rec ∈ s.users ∨ rec.role ∈ rolesSubmitted acts := by
  induction acts generalizing s with
  | nil => exact Or.inl h
  | cons a rest ih =>
    rcases ih (exec a s) h with h' | h'
    · rcases users_exec a s rec h' with h'' | h''
      · exact Or.inl h''
      · right; rw [rolesSubmitted_cons]; exact List.mem_append_left _ h''
    · right; rw [rolesSubmitted_cons]; exact List.mem_append_right _ h'

/-! The claims. -/

/-- C10: every read-only operation — the doctors scan of the GET booking
form, the doctor's appointment listing and the patient's appointment
listing — leaves the store (all three collections and the generation
counter) exactly unchanged. -/
theorem C10_read_only_frame (s : Store) (sess : Option SessionIdentity) :
    (book_appointment_get s sess).store = s ∧
    (doctor_appointments s sess).store = s ∧
    (patient_appointments s sess).store = s := by
  refine ⟨?_, ?_, ?_⟩ <;>
    (cases sess <;>
      (simp only [book_appointment_get, doctor_appointments, patient_appointments]
       repeat' split) <;> rfl)

/-- C5: the outcome of a booking — response, flash, session, stored state
and created record — is the same whatever happens to the SNS notification
(no topic configured, publish succeeded, publish raised): the dispatch
failure is absorbed inside `send_sns_notification` and never alters the
booking. -/
theorem C5_notification_failure_absorbed (s : Store) (sess : Option SessionIdentity)
    (doctor_id date reason : String) (o o' : NotifyOutcome) :
    (book_appointment_post s sess doctor_id date reason o).response
        = (book_appointment_post s sess doctor_id date reason o').response ∧
    (book_appointment_post s sess doctor_id date reason o).flash
        = (book_appointment_post s sess doctor_id date reason o').flash ∧
    (book_appointment_post s sess doctor_id date reason o).session
        = (book_appointment_post s sess doctor_id date reason o').session ∧
    (book_appointment_post s sess doctor_id date reason o).store
        = (book_appointment_post s sess doctor_id date reason o').store ∧
    (book_appointment_post s sess doctor_id date reason o).created
        = (book_appointment_post s sess doctor_id date reason o').created := by
  cases sess <;>
    simp only [book_appointment_post] <;>
    (repeat' split) <;> simp

/-- C3: for a patient session, `patient_appointments` renders exactly the
appointments whose `patient_email` equals the caller's username: an
appointment is in the rendered list iff it is in the store and its
`patient_email` is the caller's username. -/
theorem C3_patient_appointments_exact (s : Store) (i : SessionIdentity)
    (hrole : i.role = "patient") :
    (patient_appointments s (some i)).response
      = .renderedWithAppointments "view_appointment_patient.html"
          (s.appointments.filter fun a => a.patient_email == i.username) ∧
    ∀ a : AppointmentRec,
      a ∈ (s.appointments.filter fun a => a.patient_email == i.username)
        ↔ a ∈ s.appointments ∧ a.patient_email = i.username := by
  constructor
  · simp [patient_appointments, hrole]
  · intro a
    simp [List.mem_filter]

/-- C7: `doctor_appointments` redirects any caller that is not a doctor
session to the login page; for a doctor session it renders exactly the
appointments whose `doctor_id` equals the session's username, so a doctor
whose login username matches no stored `doctor_id` gets the empty list. -/
theorem C7_doctor_appointments_scope (s : Store) :
    (∀ sess : Option SessionIdentity, (∀ i, sess = some i → i.role ≠ "doctor") →
        (doctor_appointments s sess).response = .redirectTo "/login" ∧
        (doctor_appointments s sess).store = s) ∧
    ∀ i : SessionIdentity, i.role = "doctor" →
      (doctor_appointments s (some i)).response
        = .renderedWithAppointments "view_appointment_doctor.html"
            (s.appointments.filter fun a => a.doctor_id == i.username) ∧
      (∀ a : AppointmentRec,
        a ∈ (s.appointments.filter fun a => a.doctor_id == i.username)
          ↔ a ∈ s.appointments ∧ a.doctor_id = i.username) ∧
      ((∀ a ∈ s.appointments, a.doctor_id ≠ i.username) →
        s.appointments.filter (fun a => a.doctor_id == i.username) = []) := by
  constructor
  · intro sess hs
    cases sess with
    | none => exact ⟨rfl, rfl⟩
    | some i =>
      have hne : i.role ≠ "doctor" := hs i rfl
      simp [doctor_appointments, hne]
  · intro i hrole
    refine ⟨by simp [doctor_appointments, hrole],
            fun a => by simp [List.mem_filter], ?_⟩
    intro hnone
    rw [List.filter_eq_nil_iff]
    intro a ha
    simp [hnone a ha]

/-- C2: when a user with the submitted username is already on file,
`register` yields the AlreadyExists outcome ("User already exists!"),
re-renders the registration page and leaves the store — in particular the
existing user's password and role — completely unchanged. -/
theorem C2_register_existing_unchanged (s : Store) (sess : Option SessionIdentity)
    (role u p : String) (mf : Bool) (rec : UserRec)
    (hrec : rec ∈ s.users) (hu : rec.username = u) :
    (register s sess role u p mf).store = s ∧
    (register s sess role u p mf).response = .rendered "register.html" ∧
    (register s sess role u p mf).flash = some ("User already exists!", "danger") ∧
    (register s sess role u p mf).session = sess := by
  cases hg : getUser s u with
  | none =>
    have hall := List.find?_eq_none.mp hg rec hrec
    simp [hu] at hall
  | some w =>
    simp [register, hg]

/-- C1: `login` succeeds — setting the session to the submitted username
paired with the stored role and redirecting to `/<role>` — exactly when a
stored user carries the submitted username and exactly the submitted
password; on any other input it produces the one generic
"Invalid credentials!" outcome, identical for unknown-username and
wrong-password failures, with session and store untouched.  The key-nodup
hypothesis is the users-table key constraint (DynamoDB holds at most one
record per `username`). -/
theorem C1_authenticate_iff (s : Store) (sess : Option SessionIdentity) (u p : String)
    (hkeys : (s.users.map UserRec.username).Nodup) :
    (∀ rec ∈ s.users, rec.username = u → rec.password = p →
        (login s sess u p).session = some { username := u, role := rec.role } ∧
        (login s sess u p).response = .redirectTo ("/" ++ rec.role) ∧
        (login s sess u p).flash = none ∧
        (login s sess u p).store = s) ∧
    ((¬ ∃ rec ∈ s.users, rec.username = u ∧ rec.password = p) →
        (login s sess u p).response = .rendered "login.html" ∧
        (login s sess u p).flash = some ("Invalid credentials!", "danger") ∧
        (login s sess u p).session = sess ∧
        (login s sess u p).store = s) := by
  cases hg : getUser s u with
  | none =>
    constructor
    · intro rec hrec hu _
      have hall := List.find?_eq_none.mp hg rec hrec
      simp [hu] at hall
    · intro _
      simp [login, hg]
  | some user =>
    have huser_mem : user ∈ s.users := List.mem_of_find?_eq_some hg
    have huser_name : user.username = u := by
      have := List.find?_some hg
      simpa using this
    by_cases hp : user.password = p
    · constructor
      · intro rec hrec hun hpw
        have heq : rec = user :=
          List.inj_on_of_nodup_map hkeys hrec huser_mem (by rw [hun, huser_name])
        subst heq
        simp [login, hg, hp]
      · intro hno
        exact absurd ⟨user, huser_mem, huser_name, hp⟩ hno
    · constructor
      · intro rec hrec hun hpw
        have heq : rec = user :=
          List.inj_on_of_nodup_map hkeys hrec huser_mem (by rw [hun, huser_name])
        subst heq
        exact absurd hpw hp
      · intro _
        simp [login, hg, hp]

/-- C4: for a patient session and an arbitrary `doctor_id` string — the
store's doctor collection is universally quantified, so in particular the
id may match no doctor record — booking succeeds: it flashes success,
redirects to the patient dashboard, stores the appointment record with
exactly the submitted fields and status "Scheduled", and that record is
retrievable through `patient_appointments` for the same session.  No
check against the doctors table occurs. -/
theorem C4_booking_ignores_doctor_table (s : Store) (i : SessionIdentity)
    (hrole : i.role = "patient") (doctor_id date reason : String) (o : NotifyOutcome) :
    ∃ appt : AppointmentRec,
      (book_appointment_post s (some i) doctor_id date reason o).flash
          = some ("Appointment booked successfully!", "success") ∧
      (book_appointment_post s (some i) doctor_id date reason o).response
          = .redirectTo "/patient" ∧
      (book_appointment_post s (some i) doctor_id date reason o).created = some appt ∧
      appt.doctor_id = doctor_id ∧ appt.patient_email = i.username ∧
      appt.date = date ∧ appt.reason = reason ∧ appt.status = "Scheduled" ∧
      appt ∈ (book_appointment_post s (some i) doctor_id date reason o).store.appointments ∧
      appt ∈ appointmentsShown
        (patient_appointments
          (book_appointment_post s (some i) doctor_id date reason o).store (some i)) := by
  refine ⟨{ appointment_id := freshUuid s.nextUuid, doctor_id := doctor_id,
            patient_email := i.username, date := date, reason := reason,
            status := "Scheduled" }, ?_⟩
  simp [book_appointment_post, hrole, patient_appointments, appointmentsShown,
    putAppointment, List.mem_filter]

/-- C8: each role-gated operation — doctor dashboard, doctor appointment
listing, patient dashboard, booking (POST and GET) and patient
appointment listing — redirects to `/login` and leaves the store
unchanged whenever the caller has no session or the session's role
differs from the operation's required role. -/
theorem C8_unauthorized_redirect (s : Store) (sess : Option SessionIdentity)
    (doctor_id date reason : String) (o : NotifyOutcome) :
    ((∀ i, sess = some i → i.role ≠ "doctor") →
        (doctor_dashboard s sess).response = .redirectTo "/login" ∧
        (doctor_dashboard s sess).store = s ∧
        (doctor_appointments s sess).response = .redirectTo "/login" ∧
        (doctor_appointments s sess).store = s) ∧
    ((∀ i, sess = some i → i.role ≠ "patient") →
        (patient_dashboard s sess).response = .redirectTo "/login" ∧
        (patient_dashboard s sess).store = s ∧
        (book_appointment_post s sess doctor_id date reason o).response
            = .redirectTo "/login" ∧
        (book_appointment_post s sess doctor_id date reason o).store = s ∧
        (book_appointment_get s sess).response = .redirectTo "/login" ∧
        (book_appointment_get s sess).store = s ∧
        (patient_appointments s sess).response = .redirectTo "/login" ∧
        (patient_appointments s sess).store = s) := by
  constructor
  · intro hs
    cases sess with
    | none => exact ⟨rfl, rfl, rfl, rfl⟩
    | some i =>
      have hne : i.role ≠ "doctor" := hs i rfl
      simp [doctor_dashboard, doctor_appointments, hne]
  · intro hs
    cases sess with
    | none => exact ⟨rfl, rfl, rfl, rfl, rfl, rfl, rfl, rfl⟩
    | some i =>
      have hne : i.role ≠ "patient" := hs i rfl
      simp [patient_dashboard, book_appointment_post, book_appointment_get,
        patient_appointments, hne]

/-- C6: over any request sequence from any starting store, the
`appointment_id` values returned by successful bookings are pairwise
distinct — no id is ever reused across the lifetime of the store.  (The
random `uuid.uuid4()` draw is modelled by the injective fresh-name supply
`freshUuid` over the store's generation counter.) -/
theorem C6_appointment_ids_unique (acts : List Action) (s : Store) :
    (bookedIds acts s).Nodup := by
  induction acts generalizing s with
  | nil => simp [bookedIds]
  | cons a rest ih =>
    simp only [bookedIds]
    cases hc : (handle a s).created with
    | none => simpa using ih (exec a s)
    | some appt =>
      simp only [List.singleton_append, List.nodup_cons]
      refine ⟨?_, ih (exec a s)⟩
      intro hmem
      obtain ⟨m, hm, he⟩ := bookedIds_lower_bound rest (exec a s) _ hmem
      obtain ⟨hid', hinc⟩ := created_exec a s appt hc
      have hmn : s.nextUuid = m := freshUuid_injective (hid'.symm.trans he)
      omega

/-- C9, counterexample to the claim as stated: `register` stores whatever
role string the form submits, so a single registration with role "admin"
reaches a store holding a user whose role is neither "patient" nor
"doctor". -/
theorem C9_counterexample :
    ∃ rec ∈ (run [Action.regAct none "admin" "eve" "pw" false] emptyStore).users,
      rec.role ≠ "patient" ∧ rec.role ≠ "doctor" := by decide

/-- C9, amended: a stored user's role is always one of the role strings
submitted to `register` during the run, so the invariant
role ∈ {"patient", "doctor"} holds in every store reachable from the
empty store by requests whose registrations all submit one of those two
roles — the code itself performs no validation of the role field. -/
theorem C9_roles_patient_or_doctor (acts : List Action)
    (h : ∀ role ∈ rolesSubmitted acts, role = "patient" ∨ role = "doctor") :
    ∀ rec ∈ (run acts emptyStore).users,
      rec.role = "patient" ∨ rec.role = "doctor" := by
  intro rec hrec
  rcases users_run acts emptyStore rec hrec with h' | h'
  · simp [emptyStore] at h'
  · exact h rec.role h'

/-! Witnesses: each applies its claim's theorem at a concrete input and
discharges the hypotheses there. -/

theorem C1_witness :
    (login demoUsers none "alice" "pw1").session
      = some { username := "alice", role := "patient" } :=
  ((C1_authenticate_iff demoUsers none "alice" "pw1" (by decide)).1
    aliceRec (by decide) rfl rfl).1

theorem C2_witness :
    (register demoUsers none "doctor" "alice" "other" false).store = demoUsers :=
  (C2_register_existing_unchanged demoUsers none "doctor" "alice" "other" false
    aliceRec (by decide) rfl).1

theorem C3_witness :
    (patient_appointments demoBooked
        (some { username := "alice", role := "patient" })).response
      = .renderedWithAppointments "view_appointment_patient.html"
          (demoBooked.appointments.filter fun a => a.patient_email == "alice") :=
  (C3_patient_appointments_exact demoBooked
    { username := "alice", role := "patient" } rfl).1

theorem C4_witness :
    ∃ appt : AppointmentRec,
      (book_appointment_post demoBooked (some { username := "alice", role := "patient" })
          "ghost" "2024-02-02" "checkup" .publishFailed).flash
          = some ("Appointment booked successfully!", "success") ∧
      (book_appointment_post demoBooked (some { username := "alice", role := "patient" })
          "ghost" "2024-02-02" "checkup" .publishFailed).response
          = .redirectTo "/patient" ∧
      (book_appointment_post demoBooked (some { username := "alice", role := "patient" })
          "ghost" "2024-02-02" "checkup" .publishFailed).created = some appt ∧
      appt.doctor_id = "ghost" ∧
      appt.patient_email
          = ({ username := "alice", role := "patient" } : SessionIdentity).username ∧
      appt.date = "2024-02-02" ∧ appt.reason = "checkup" ∧ appt.status = "Scheduled" ∧
      appt ∈ (book_appointment_post demoBooked
          (some { username := "alice", role := "patient" })
          "ghost" "2024-02-02" "checkup" .publishFailed).store.appointments ∧
      appt ∈ appointmentsShown
        (patient_appointments
          (book_appointment_post demoBooked
            (some { username := "alice", role := "patient" })
            "ghost" "2024-02-02" "checkup" .publishFailed).store
          (some { username := "alice", role := "patient" })) :=
  C4_booking_ignores_doctor_table demoBooked { username := "alice", role := "patient" }
    rfl "ghost" "2024-02-02" "checkup" .publishFailed

theorem C7_witness :
    (doctor_appointments demoBooked
        (some { username := "greg", role := "doctor" })).response
      = .renderedWithAppointments "view_appointment_doctor.html" [] := by
  have h := (C7_doctor_appointments_scope demoBooked).2
    { username := "greg", role := "doctor" } rfl
  rw [h.1, h.2.2 (by decide)]

theorem C8_witness :
    (doctor_appointments demoBooked none).response = .redirectTo "/login" ∧
    (book_appointment_post demoBooked none "D1" "2024-03-03" "visit" .published).store
      = demoBooked :=
  ⟨((C8_unauthorized_redirect demoBooked none "D1" "2024-03-03" "visit" .published).1
      (fun _ h => Option.noConfusion h)).2.2.1,
   ((C8_unauthorized_redirect demoBooked none "D1" "2024-03-03" "visit" .published).2
      (fun _ h => Option.noConfusion h)).2.2.2.1⟩

theorem C9_witness :
    (∀ role ∈ rolesSubmitted demoActs, role = "patient" ∨ role = "doctor") ∧
    (aliceRec.role = "patient" ∨ aliceRec.role = "doctor") :=
  ⟨by decide, C9_roles_patient_or_doctor demoActs (by decide) aliceRec (by decide)⟩

end MedTrack
